import Mathlib

/-!
Verification of `src/native/scripts/macos/darwin/process-list.py`: a template
script that substitutes a pid token for `{{PID}}`, parses it with Python's
`int`, queries the CoreGraphics window server via
`Quartz.CGWindowListCopyWindowInfo`, filters the returned window descriptors
by owning process id, and prints the matching windows as one JSON array.

The script is embedded shallowly: JSON values form an inductive type,
OS window descriptors are records of optional fields (mirroring Python
`dict.get`), and the whole script is a pure function from the pid token and
the OS state to an observable run result (whether the OS was queried, the
JSON values written to stdout, and whether the exit status is zero).
-/

namespace ProcessList

/-- JSON values, as produced by `json.dumps` (modelled at the value level;
serialisation whitespace is abstracted away). Numbers are integers, which
covers every value the script emits. -/
inductive Json where
  | null : Json
  | bool : Bool → Json
  | num : Int → Json
  | str : String → Json
  | arr : List Json → Json
  | obj : List (String × Json) → Json
deriving Repr

/-- The keys of a JSON object (empty for non-objects). -/
def jsonKeys : Json → List String
  | .obj fields => fields.map (fun f => f.1)
  | _ => []

/-- Lookup of a key in a JSON object. -/
def jsonLookup (j : Json) (k : String) : Option Json :=
  match j with
  | .obj fields => (fields.find? (fun f => f.1 == k)).map (fun f => f.2)
  | _ => none

/-- A raw window descriptor as returned by `CGWindowListCopyWindowInfo`:
a dictionary whose fields may each be absent, read in the script via
`window.get`. Field names follow the CoreGraphics keys used in the source. -/
structure CGWindow where
  kCGWindowOwnerPID : Option Int
  kCGWindowNumber : Option Int
  kCGWindowName : Option String
  kCGWindowOwnerName : Option String
  kCGWindowBounds : Option Json
deriving Repr

/-- An emitted Window Record: the dictionary the script appends to `result`
for each kept descriptor. -/
structure WindowRecord where
  handle : String
  title : String
  className : String
  processId : Int
  bounds : Json
deriving Repr

/-- One iteration body of the script's loop: the record built from a kept
descriptor.

`handle` is `str(window.get('kCGWindowNumber', 0))`, `title` is
`window.get('kCGWindowName', '')`, `className` is
`window.get('kCGWindowOwnerName', '')`, `processId` is the parsed input
`pid` itself, and `bounds` is `window.get('kCGWindowBounds', {})`. -/
def buildRecord (pid : Int) (w : CGWindow) : WindowRecord :=
  { handle := toString (w.kCGWindowNumber.getD 0)
    title := w.kCGWindowName.getD ""
    className := w.kCGWindowOwnerName.getD ""
    processId := pid
    bounds := w.kCGWindowBounds.getD (Json.obj []) }

/-- The script's filtering loop over `window_list`: keep a descriptor exactly
when `window.get('kCGWindowOwnerPID') == pid` (absence of the owner field
compares unequal to any pid, as Python's `None == pid` is false), and append
`buildRecord` for each kept descriptor in enumeration order. -/
def processWindows (pid : Int) : List CGWindow → List WindowRecord
  | [] => []
  | w :: ws =>
    if w.kCGWindowOwnerPID = some pid then
      buildRecord pid w :: processWindows pid ws
    else
      processWindows pid ws

/-- JSON rendering of one Window Record, with the dict's insertion order of
keys from the source. -/
def recordToJson (r : WindowRecord) : Json :=
  Json.obj
    [("handle", Json.str r.handle),
     ("title", Json.str r.title),
     ("className", Json.str r.className),
     ("processId", Json.num r.processId),
     ("bounds", r.bounds)]

/-- The single JSON value the script prints: `json.dumps(result)`. -/
def outputJson (pid : Int) (ws : List CGWindow) : Json :=
  Json.arr ((processWindows pid ws).map recordToJson)

/-- Python whitespace accepted around an integer literal by `int`. -/
def isPySpace (c : Char) : Bool :=
  c = ' ' ∨ c = '\t' ∨ c = '\n' ∨ c = '\r' ∨ c = '\x0b' ∨ c = '\x0c'

/-- Decimal digit test. -/
def isPyDigit (c : Char) : Bool :=
  '0' ≤ c ∧ c ≤ '9'

/-- The natural number denoted by a non-empty string of decimal digits,
`none` if the character list is empty or contains a non-digit. -/
def natOfDigits (cs : List Char) : Option Nat :=
  if cs = [] then none
  else if cs.all isPyDigit then
    some (cs.foldl (fun a c => 10 * a + (c.toNat - 48)) 0)
  else none

/-- Sign handling of Python's `int`: an optional single leading `+` or `-`
followed by decimal digits. -/
def parseSigned (cs : List Char) : Option Int :=
  match cs with
  | '+' :: rest => (natOfDigits rest).map (fun n => (n : Int))
  | '-' :: rest => (natOfDigits rest).map (fun n => -(n : Int))
  | _ => (natOfDigits cs).map (fun n => (n : Int))

/-- Model of Python's `int(s)` on the substituted token: surrounding
whitespace is ignored, then an optional sign and a non-empty digit string;
any other shape raises `ValueError`, modelled as `none`. -/
def pyInt (s : String) : Option Int :=
  parseSigned (((s.toList.dropWhile isPySpace).reverse.dropWhile isPySpace).reverse)

/-- The window-list options of the CoreGraphics enumeration facility that are
relevant here. -/
inductive CGWindowListOption where
  | optionAll : CGWindowListOption
  | optionOnScreenOnly : CGWindowListOption
deriving Repr, DecidableEq

/-- The option constant the script passes to `CGWindowListCopyWindowInfo`:
`Quartz.kCGWindowListOptionAll`. -/
def queryOption : CGWindowListOption := CGWindowListOption.optionAll

/-- A window known to the window server, together with whether it is
currently on screen (the attribute the enumeration options select on). -/
structure OsWindow where
  onScreen : Bool
  info : CGWindow
deriving Repr

/-- The state of the OS enumeration facility: either unavailable (access
denied or no window server), or available with the current window list. -/
inductive OsState where
  | unavailable : OsState
  | available : List OsWindow → OsState
deriving Repr

/-- Model of `CGWindowListCopyWindowInfo` (environment model of the
documented CoreGraphics semantics): `kCGWindowListOptionAll` returns every
window known to the window server, `kCGWindowListOptionOnScreenOnly` returns
only the on-screen ones; a failing call returns `none`. -/
def cgWindowListCopyWindowInfo (opt : CGWindowListOption) (st : OsState) :
    Option (List CGWindow) :=
  match st with
  | OsState.unavailable => none
  | OsState.available ws =>
    match opt with
    | CGWindowListOption.optionAll => some (ws.map (fun w => w.info))
    | CGWindowListOption.optionOnScreenOnly =>
        some ((ws.filter (fun w => w.onScreen)).map (fun w => w.info))

/-- The observable outcome of one run of the script: whether the OS
enumeration facility was called, the JSON values written to stdout (each
printed as one newline-terminated line by `print`), and whether the process
exits with status zero. An uncaught Python exception exits non-zero. -/
structure RunResult where
  osQueried : Bool
  stdout : List Json
  exitZero : Bool
deriving Repr

/-- The whole script, top to bottom: parse the substituted pid token with
`int` (a `ValueError` aborts before any OS call), query the window server
with `kCGWindowListOptionAll` (a failure there aborts with nothing printed),
filter and build the records, and print exactly one JSON array. -/
def runScript (pidToken : String) (st : OsState) : RunResult :=
  match pyInt pidToken with
  | none => { osQueried := false, stdout := [], exitZero := false }
  | some pid =>
    match cgWindowListCopyWindowInfo queryOption st with
    | none => { osQueried := true, stdout := [], exitZero := false }
    | some ws =>
      { osQueried := true, stdout := [outputJson pid ws], exitZero := true }

/-! ## Sample descriptors used by concrete witnesses -/

/-- The bounds of the Scenario B descriptor: `{x:0,y:0,width:800,height:600}`. -/
def boundsNotes : Json :=
  Json.obj [("x", Json.num 0), ("y", Json.num 0),
            ("width", Json.num 800), ("height", Json.num 600)]

/-- The Scenario B descriptor:
`{owner:1234, number:55, name:"Notes", ownerName:"Notes", bounds:...}`. -/
def wNotes : CGWindow :=
  { kCGWindowOwnerPID := some 1234
    kCGWindowNumber := some 55
    kCGWindowName := some "Notes"
    kCGWindowOwnerName := some "Notes"
    kCGWindowBounds := some boundsNotes }

/-- A descriptor owned by a different process. -/
def wOther : CGWindow :=
  { kCGWindowOwnerPID := some 99
    kCGWindowNumber := some 7
    kCGWindowName := some "Other"
    kCGWindowOwnerName := some "OtherApp"
    kCGWindowBounds := none }

/-- A descriptor with no owner-process field at all. -/
def wNoOwner : CGWindow :=
  { kCGWindowOwnerPID := none
    kCGWindowNumber := some 8
    kCGWindowName := none
    kCGWindowOwnerName := none
    kCGWindowBounds := none }

/-- A descriptor owned by pid 42 with every optional field absent. -/
def wBare : CGWindow :=
  { kCGWindowOwnerPID := some 42
    kCGWindowNumber := none
    kCGWindowName := none
    kCGWindowOwnerName := none
    kCGWindowBounds := none }

/-- A one-element window-server state holding the Scenario B descriptor on
screen. -/
def oswNotes : List OsWindow := [{ onScreen := true, info := wNotes }]

/-! ## Helper lemmas -/

/-- The filtering loop equals `filter` by exact owner match followed by
`map buildRecord`. -/
theorem processWindows_eq_filter_map (pid : Int) (ws : List CGWindow) :
    processWindows pid ws
      = (ws.filter (fun w => decide (w.kCGWindowOwnerPID = some pid))).map
          (buildRecord pid) := by
  induction ws with
  | nil => rfl
  | cons w ws ih =>
    by_cases h : w.kCGWindowOwnerPID = some pid
    · simp [processWindows, List.filter_cons, h, ih]
    · simp [processWindows, List.filter_cons, h, ih]

/-- Every record in the output carries the parsed input pid. -/
theorem processId_of_mem (pid : Int) (ws : List CGWindow) (r : WindowRecord)
    (hr : r ∈ processWindows pid ws) : r.processId = pid := by
  rw [processWindows_eq_filter_map] at hr
  rcases List.mem_map.mp hr with ⟨w, _, hw⟩
  rw [← hw]
  rfl

/-! ## Claims -/

/-- C1: a Window Record appears in the output exactly for the descriptors
whose owner-process field equals `pid`, and the kept descriptors appear in
the OS-reported relative order (the kept list is a sublist of the input, so
filtering never reorders). -/
theorem c1_exact_filter_preserves_order (pid : Int) (ws : List CGWindow) :
    processWindows pid ws
      = (ws.filter (fun w => decide (w.kCGWindowOwnerPID = some pid))).map
          (buildRecord pid)
    ∧ (ws.filter (fun w => decide (w.kCGWindowOwnerPID = some pid))).Sublist ws :=
  ⟨processWindows_eq_filter_map pid ws, List.filter_sublist ws⟩

/-- C3: every emitted record's `processId` equals the input `pid` itself. -/
theorem c3_processId_is_input_pid (pid : Int) (ws : List CGWindow)
    (r : WindowRecord) (hr : r ∈ processWindows pid ws) : r.processId = pid :=
  processId_of_mem pid ws r hr

/-- Witness for C3 at a concrete input: the record built from the Scenario B
descriptor inside a mixed window list carries `processId = 1234`. -/
theorem c3_processId_is_input_pid_witness :
    (buildRecord 1234 wNotes).processId = 1234 :=
  c3_processId_is_input_pid 1234 [wOther, wNotes, wNoOwner] (buildRecord 1234 wNotes)
    (by simp [processWindows, wOther, wNotes, wNoOwner])

/-- C6: descriptors lacking the owner-process field are treated as
non-matching: deleting them from the input does not change the output, and an
input of only ownerless descriptors produces the empty output (never a
crash — `processWindows` is total). -/
theorem c6_missing_owner_excluded (pid : Int) (ws : List CGWindow) :
    processWindows pid ws
      = processWindows pid (ws.filter (fun w => w.kCGWindowOwnerPID.isSome))
    ∧ processWindows pid
        (ws.filter (fun w => decide (w.kCGWindowOwnerPID = none))) = [] := by
  constructor
  · induction ws with
    | nil => rfl
    | cons w ws ih =>
      by_cases h : w.kCGWindowOwnerPID = some pid
      · simp [processWindows, List.filter_cons, h, Option.isSome, ih]
      · by_cases h2 : w.kCGWindowOwnerPID.isSome
        · simp [processWindows, List.filter_cons, h, h2, ih]
        · simp [processWindows, List.filter_cons, h, h2, ih]
  · induction ws with
    | nil => rfl
    | cons w ws ih =>
      by_cases h : w.kCGWindowOwnerPID = none
      · simp [processWindows, List.filter_cons, h, ih]
      · simp [List.filter_cons, h, ih]

/-- C9: the producer is a deterministic function of the pid token and the OS
state, and a permutation of the OS-returned descriptor list permutes the
emitted records (same multiset of records when only the OS order differs). -/
theorem c9_deterministic_perm_stable (tok : String) (st : OsState) (pid : Int)
    (ws₁ ws₂ : List CGWindow) (hperm : ws₁.Perm ws₂) :
    runScript tok st = runScript tok st
    ∧ (processWindows pid ws₁).Perm (processWindows pid ws₂) := by
  refine ⟨rfl, ?_⟩
  rw [processWindows_eq_filter_map, processWindows_eq_filter_map]
  exact (hperm.filter _).map _

/-- Witness for C9 at a concrete input: swapping two OS-returned descriptors
permutes the emitted records. -/
theorem c9_deterministic_perm_stable_witness :
    runScript "7" OsState.unavailable = runScript "7" OsState.unavailable
    ∧ (processWindows 1234 [wNotes, wOther]).Perm
        (processWindows 1234 [wOther, wNotes]) :=
  c9_deterministic_perm_stable "7" OsState.unavailable 1234 [wNotes, wOther]
    [wOther, wNotes] (List.Perm.swap wOther wNotes [])

/-- C2 counterexample: the claim says off-screen windows are not enumerated,
but the script passes `kCGWindowListOptionAll`, so a run whose only window is
off-screen (owned by the queried pid 1234) still emits a record for it. -/
theorem c2_counterexample_offscreen_enumerated :
    (runScript "1234"
        (OsState.available [{ onScreen := false, info := wNotes }])).stdout
      = [Json.arr [recordToJson (buildRecord 1234 wNotes)]]
    ∧ queryOption ≠ CGWindowListOption.optionOnScreenOnly :=
  ⟨rfl, by decide⟩

/-- C2 as amended: the single OS query passes `kCGWindowListOptionAll`, which
enumerates every window known to the window server across all owning
processes, whether on screen or not — replacing every descriptor's on-screen
flag changes nothing about the run. -/
theorem c2_amended_query_all_windows (tok : String) (osw : List OsWindow)
    (b : Bool) :
    queryOption = CGWindowListOption.optionAll
    ∧ runScript tok
        (OsState.available (osw.map (fun w => { onScreen := b, info := w.info })))
        = runScript tok (OsState.available osw) := by
  refine ⟨rfl, ?_⟩
  unfold runScript
  cases pyInt tok with
  | none => rfl
  | some pid =>
    simp only [cgWindowListCopyWindowInfo, queryOption, List.map_map]
    rfl

/-- C4: faults are fatal and atomic. A pid token that does not parse as an
integer aborts before the OS is queried, with nothing on stdout and a
non-zero exit; an unavailable OS enumeration facility aborts after the parse,
again with nothing on stdout and a non-zero exit. -/
theorem c4_faults_fatal_atomic :
    (∀ tok st, pyInt tok = none →
        runScript tok st
          = { osQueried := false, stdout := [], exitZero := false })
    ∧ (∀ tok pid, pyInt tok = some pid →
        runScript tok OsState.unavailable
          = { osQueried := true, stdout := [], exitZero := false }) := by
  constructor
  · intro tok st h
    simp [runScript, h]
  · intro tok pid h
    simp [runScript, h, cgWindowListCopyWindowInfo]

/-- Witness for C4 at concrete inputs: the unsubstituted-looking token
`"notanint"` fails the parse with no OS query, and a valid pid `"1234"`
against an unavailable window server fails after the query with no output. -/
theorem c4_faults_fatal_atomic_witness :
    runScript "notanint" (OsState.available [{ onScreen := true, info := wNotes }])
      = { osQueried := false, stdout := [], exitZero := false }
    ∧ runScript "1234" OsState.unavailable
      = { osQueried := true, stdout := [], exitZero := false } :=
  ⟨c4_faults_fatal_atomic.1 "notanint" _ rfl,
   c4_faults_fatal_atomic.2 "1234" 1234 rfl⟩

/-- C5: a matching descriptor with missing optional fields is still emitted
(enumeration continues) and receives the documented defaults: title `""`,
handle `"0"`, bounds `{}` (the empty object), owning-application name `""`. -/
theorem c5_missing_fields_defaulted (pid : Int) (xs ys : List CGWindow)
    (w : CGWindow) (how : w.kCGWindowOwnerPID = some pid) :
    buildRecord pid w ∈ processWindows pid (xs ++ w :: ys)
    ∧ (w.kCGWindowName = none → (buildRecord pid w).title = "")
    ∧ (w.kCGWindowNumber = none → (buildRecord pid w).handle = "0")
    ∧ (w.kCGWindowBounds = none → (buildRecord pid w).bounds = Json.obj [])
    ∧ (w.kCGWindowOwnerName = none → (buildRecord pid w).className = "") := by
  refine ⟨?_, ?_, ?_, ?_, ?_⟩
  · rw [processWindows_eq_filter_map]
    exact List.mem_map_of_mem _
      (List.mem_filter.mpr
        ⟨List.mem_append_right xs (List.mem_cons_self w ys), by simp [how]⟩)
  · intro h; simp [buildRecord, h]
  · intro h; simp [buildRecord, h]; rfl
  · intro h; simp [buildRecord, h]
  · intro h; simp [buildRecord, h]

/-- Witness for C5 at a concrete input: the descriptor owned by pid 42 with
every optional field absent is still emitted, with all four defaults. -/
theorem c5_missing_fields_defaulted_witness :
    buildRecord 42 wBare ∈ processWindows 42 ([wOther] ++ wBare :: [wNoOwner])
    ∧ (wBare.kCGWindowName = none → (buildRecord 42 wBare).title = "")
    ∧ (wBare.kCGWindowNumber = none → (buildRecord 42 wBare).handle = "0")
    ∧ (wBare.kCGWindowBounds = none → (buildRecord 42 wBare).bounds = Json.obj [])
    ∧ (wBare.kCGWindowOwnerName = none → (buildRecord 42 wBare).className = "") :=
  c5_missing_fields_defaulted 42 [wOther] [wNoOwner] wBare rfl

/-- C7: whenever the pid token parses and the OS call succeeds, the run
completes with exit status zero and writes exactly one JSON value to stdout;
when zero windows match, that value is the empty array `[]`. -/
theorem c7_success_single_json (tok : String) (pid : Int) (osw : List OsWindow)
    (hp : pyInt tok = some pid) :
    runScript tok (OsState.available osw)
      = { osQueried := true,
          stdout := [outputJson pid (osw.map (fun w => w.info))],
          exitZero := true }
    ∧ (processWindows pid (osw.map (fun w => w.info)) = [] →
        (runScript tok (OsState.available osw)).stdout = [Json.arr []]) := by
  have hrun : runScript tok (OsState.available osw)
      = { osQueried := true,
          stdout := [outputJson pid (osw.map (fun w => w.info))],
          exitZero := true } := by
    simp [runScript, hp, cgWindowListCopyWindowInfo, queryOption]
  refine ⟨hrun, fun hempty => ?_⟩
  rw [hrun]
  simp [outputJson, hempty]

/-- Witness for C7 at a concrete input: pid 99 matches nothing in a window
list owned by 1234, and the run exits zero printing exactly `[]`. -/
theorem c7_success_single_json_witness :
    runScript "99" (OsState.available oswNotes)
      = { osQueried := true,
          stdout := [outputJson 99 (oswNotes.map (fun w => w.info))],
          exitZero := true }
    ∧ (processWindows 99 (oswNotes.map (fun w => w.info)) = [] →
        (runScript "99" (OsState.available oswNotes)).stdout = [Json.arr []]) :=
  c7_success_single_json "99" 99 oswNotes rfl

/-- C8: every emitted record renders as a JSON object with exactly the five
keys `handle`, `title`, `className`, `processId`, `bounds`; `processId` is
the integer input pid, `handle` is the string form of the window number, and
`bounds` is the OS value passed through; Scenario B (pid 1234 against the
single Notes descriptor) produces exactly the documented one-element array. -/
theorem c8_record_shape_scenario_b (pid : Int) (ws : List CGWindow)
    (r : WindowRecord) (hr : r ∈ processWindows pid ws) :
    jsonKeys (recordToJson r)
      = ["handle", "title", "className", "processId", "bounds"]
    ∧ jsonLookup (recordToJson r) "processId" = some (Json.num pid)
    ∧ jsonLookup (recordToJson r) "handle" = some (Json.str r.handle)
    ∧ jsonLookup (recordToJson r) "bounds" = some r.bounds
    ∧ (∀ w : CGWindow,
        (buildRecord pid w).handle = toString (w.kCGWindowNumber.getD 0)
        ∧ (buildRecord pid w).bounds = w.kCGWindowBounds.getD (Json.obj []))
    ∧ (runScript "1234" (OsState.available oswNotes)).stdout
      = [Json.arr [Json.obj
          [("handle", Json.str "55"), ("title", Json.str "Notes"),
           ("className", Json.str "Notes"), ("processId", Json.num 1234),
           ("bounds", boundsNotes)]]] := by
  refine ⟨rfl, ?_, rfl, rfl, fun w => ⟨rfl, rfl⟩, ?_⟩
  · rw [show jsonLookup (recordToJson r) "processId"
        = some (Json.num r.processId) from rfl,
      processId_of_mem pid ws r hr]
  · rfl

/-- Witness for C8 at the Scenario B input itself. -/
theorem c8_record_shape_scenario_b_witness :
    jsonKeys (recordToJson (buildRecord 1234 wNotes))
      = ["handle", "title", "className", "processId", "bounds"]
    ∧ jsonLookup (recordToJson (buildRecord 1234 wNotes)) "processId"
      = some (Json.num 1234)
    ∧ jsonLookup (recordToJson (buildRecord 1234 wNotes)) "handle"
      = some (Json.str (buildRecord 1234 wNotes).handle)
    ∧ jsonLookup (recordToJson (buildRecord 1234 wNotes)) "bounds"
      = some (buildRecord 1234 wNotes).bounds
    ∧ (∀ w : CGWindow,
        (buildRecord 1234 w).handle = toString (w.kCGWindowNumber.getD 0)
        ∧ (buildRecord 1234 w).bounds = w.kCGWindowBounds.getD (Json.obj []))
    ∧ (runScript "1234" (OsState.available oswNotes)).stdout
      = [Json.arr [Json.obj
          [("handle", Json.str "55"), ("title", Json.str "Notes"),
           ("className", Json.str "Notes"), ("processId", Json.num 1234),
           ("bounds", boundsNotes)]]] :=
  c8_record_shape_scenario_b 1234 [wNotes] (buildRecord 1234 wNotes)
    (by simp [processWindows, wNotes])

/-- C10: no non-negativity check is enforced on the parsed pid. Any token
that parses as an integer — a negative one included — leads to a normal run:
the OS is queried, exactly one JSON array is printed, the exit status is
zero, and the array is empty unless some descriptor's owner field equals that
(possibly negative) value. -/
theorem c10_negative_pid_not_rejected (tok : String) (pid : Int)
    (osw : List OsWindow) (hp : pyInt tok = some pid) (_hneg : pid < 0) :
    runScript tok (OsState.available osw)
      = { osQueried := true,
          stdout := [outputJson pid (osw.map (fun w => w.info))],
          exitZero := true }
    ∧ ((osw.map (fun w => w.info)).filter
          (fun w => decide (w.kCGWindowOwnerPID = some pid)) = [] →
        (runScript tok (OsState.available osw)).stdout = [Json.arr []]) := by
  have hrun : runScript tok (OsState.available osw)
      = { osQueried := true,
          stdout := [outputJson pid (osw.map (fun w => w.info))],
          exitZero := true } := by
    simp [runScript, hp, cgWindowListCopyWindowInfo, queryOption]
  refine ⟨hrun, fun h => ?_⟩
  rw [hrun]
  simp [outputJson, processWindows_eq_filter_map, h]

/-- Witness for C10 at the concrete token `"-5"`: the parse succeeds with
`-5`, the run completes with exit zero, and no descriptor matches. -/
theorem c10_negative_pid_not_rejected_witness :
    runScript "-5" (OsState.available oswNotes)
      = { osQueried := true,
          stdout := [outputJson (-5) (oswNotes.map (fun w => w.info))],
          exitZero := true }
    ∧ ((oswNotes.map (fun w => w.info)).filter
          (fun w => decide (w.kCGWindowOwnerPID = some (-5))) = [] →
        (runScript "-5" (OsState.available oswNotes)).stdout = [Json.arr []]) :=
  c10_negative_pid_not_rejected "-5" (-5) oswNotes rfl (by decide)

end ProcessList
